import Mathlib

/-!
Verification development for the MTA-Tracker repository: a shallow
embedding of the station-directory build/lookup logic
(`station_mapping.py`), the vehicle/trip-update/alert projection logic
(`mta_gtfs_controller.py`, `GTFS_Controller.py`), and proofs of the
specified properties.
-/

namespace MTATracker

/-- One row of the NY Open Data station dataset, as consumed by
`StationMapping.download_and_process_gtfs`.  Each field may be missing
from the JSON record; Python reads them with `station.get(field, '')`. -/
structure StationRow where
  gtfs_stop_id : Option String
  stop_name : Option String
  borough : Option String
deriving DecidableEq, Repr

/-- The `station_names` dictionary: a map from stop id to display name.
Python dict lookup `d.get(k, default)` and assignment `d[k] = v` are
modelled on this function type. -/
def StationNames : Type := String → Option String

/-- Python `d[k] = v` (assignment overwrites any previous entry). -/
def StationNames.insert (m : StationNames) (k v : String) : StationNames :=
  fun key => if key = k then some v else m key

/-- The empty dictionary `{}` from `StationMapping.__init__`. -/
def StationNames.empty : StationNames := fun _ => none

/-- The body of the per-station loop in
`StationMapping.download_and_process_gtfs`:

    stop_id = station.get('gtfs_stop_id', '')
    if stop_id:
        station_name = station.get('stop_name', '')
        borough = station.get('borough', '')
        if station_name:
            full_name = f"{station_name} ({borough})" if borough else station_name
            self.station_names[stop_id] = full_name

Python truthiness of a string is non-emptiness. -/
def processRow (m : StationNames) (station : StationRow) : StationNames :=
  let stop_id := station.gtfs_stop_id.getD ""
  if stop_id ≠ "" then
    let station_name := station.stop_name.getD ""
    let borough := station.borough.getD ""
    if station_name ≠ "" then
      let full_name := if borough ≠ "" then station_name ++ " (" ++ borough ++ ")" else station_name
      m.insert stop_id full_name
    else m
  else m

/-- The method `StationMapping.download_and_process_gtfs`, applied to
the decoded JSON rows (the HTTP fetch itself is an excluded
collaborator): the station loop folded over the rows, starting from the
empty dictionary. -/
def download_and_process_gtfs (stations : List StationRow) : StationNames :=
  stations.foldl processRow StationNames.empty

/-- The character set of Python `stop_id.rstrip('NS')`. -/
def isDirChar (c : Char) : Bool := c = 'N' || c = 'S'

/-- Python `s.rstrip('NS')`: removes every trailing character belonging
to the set {'N', 'S'}. -/
def rstripNS (s : String) : String :=
  String.mk ((s.data.reverse.dropWhile isDirChar).reverse)

/-- The lookup of `StationMapping.get_station_name`:

    base_stop_id = stop_id.rstrip('NS')
    return self.station_names.get(base_stop_id, stop_id)
-/
def get_station_name (station_names : StationNames) (stop_id : String) : String :=
  let base_stop_id := rstripNS stop_id
  (station_names base_stop_id).getD stop_id

/-- The `StationMapping` object: its only state is the `station_names`
dictionary. -/
structure StationMapping where
  station_names : StationNames

/-- The method `StationMapping.get_station_name` with explicit state
passing: the body reads `self.station_names` and performs no
assignment, so the post-state is the pre-state. -/
def StationMapping.get_station_name (self : StationMapping) (stop_id : String) :
    String × StationMapping :=
  (MTATracker.get_station_name self.station_names stop_id, self)

/-- GTFS `TripDescriptor`: the `trip` sub-message with the identifiers
the controllers read. -/
structure TripDescriptor where
  trip_id : String
  route_id : String
deriving DecidableEq, Repr

/-- GTFS `VehiclePosition` entity, with the optional fields
`display_train_positions` checks via `HasField`.  The optional
`position` sub-message (floating-point latitude/longitude) is only
printed and is touched by no claim, so it is not modelled. -/
structure VehiclePosition where
  trip : Option TripDescriptor
  stop_id : Option String
  current_status : Option Int
deriving DecidableEq, Repr

/-- The inline dictionary of `MTAGTFSController.display_train_positions`:

    status_mapping = {0: "INCOMING_AT", 1: "STOPPED_AT", 2: "IN_TRANSIT_TO"}
    status_str = status_mapping.get(status, "UNKNOWN")
-/
def status_mapping (status : Int) : String :=
  if status = 0 then "INCOMING_AT"
  else if status = 1 then "STOPPED_AT"
  else if status = 2 then "IN_TRANSIT_TO"
  else "UNKNOWN"

/-- Modelled from the spec: the value of reading `vehicle.current_status`
when the optional field is absent.  The protobuf-generated module
`gtfs_realtime_pb2` that defines this read is not among the source
files; the spec (§4.1, §4.2) states that a field-absent status maps to
the label "UNKNOWN". A present field feeds the integer into the
`status_mapping` dictionary exactly as the source does. -/
def read_current_status : Option Int → String
  | some status => status_mapping status
  | none => "UNKNOWN"

/-- The record printed per vehicle by
`MTAGTFSController.display_train_positions`. -/
structure TrainDisplay where
  train : String
  station : String
  status : String
deriving DecidableEq, Repr

/-- The per-vehicle block of `MTAGTFSController.display_train_positions`:

    trip_id = vehicle.trip.trip_id if vehicle.HasField('trip') else 'N/A'
    stop_id = vehicle.stop_id if vehicle.HasField('stop_id') else 'N/A'
    status_str = status_mapping.get(vehicle.current_status, "UNKNOWN")

The method prints the raw `stop_id`; it never consults
`StationMapping`. -/
def projectVehicle (vehicle : VehiclePosition) : TrainDisplay :=
  { train := match vehicle.trip with
      | some trip => trip.trip_id
      | none => "N/A"
    station := vehicle.stop_id.getD "N/A"
    status := read_current_status vehicle.current_status }

/-- GTFS `StopTimeUpdate`: stop id plus optional arrival/departure
events, each carrying an epoch-seconds time. -/
structure StopTimeUpdate where
  stop_id : String
  arrival : Option Int
  departure : Option Int
deriving DecidableEq, Repr

/-- GTFS `TripUpdate` entity: trip descriptor and the ordered repeated
field `stop_time_update`. -/
structure TripUpdate where
  trip : TripDescriptor
  stop_time_update : List StopTimeUpdate
deriving DecidableEq, Repr

/-- The record printed per stop-time update by
`MTAGTFSController._process_trip_update`. -/
structure StopTimeRecord where
  stop_id : String
  arrival : String
  departure : String
deriving DecidableEq, Repr

/-- The method `MTAGTFSController._process_trip_update`
(GTFS_Controller.py): one record per `stop_time_update`, in feed order:

    arrival = time.ctime(stu.arrival.time) if stu.HasField('arrival') else 'N/A'
    departure = time.ctime(stu.departure.time) if stu.HasField('departure') else 'N/A'

`time.ctime` is a Python standard-library formatter, external to the
repository, so it is a parameter. -/
def process_trip_update (ctime : Int → String) (trip_update : TripUpdate) :
    List StopTimeRecord :=
  trip_update.stop_time_update.map fun stu =>
    { stop_id := stu.stop_id
      arrival := match stu.arrival with
        | some t => ctime t
        | none => "N/A"
      departure := match stu.departure with
        | some t => ctime t
        | none => "N/A" }

/-- One GTFS translation: a text and an optional language tag. -/
structure Translation where
  text : String
  language : Option String
deriving DecidableEq, Repr

/-- GTFS `TranslatedString`: the repeated `translation` field. -/
structure TranslatedString where
  translation : List Translation
deriving DecidableEq, Repr

/-- GTFS `Alert` entity with its header and description texts. -/
structure Alert where
  header_text : TranslatedString
  description_text : TranslatedString
deriving DecidableEq, Repr

/-- The method `MTAGTFSController._process_alert` (GTFS_Controller.py)
and `display_status_alerts` (mta_gtfs_controller.py): every header
translation text and every description translation text, each list in
feed order, no de-duplication, no language filtering. -/
def process_alert (alert : Alert) : List String × List String :=
  (alert.header_text.translation.map Translation.text,
   alert.description_text.translation.map Translation.text)

/-- Modelled from the claim of C2 (not from the source): stripping *at
most one* trailing direction character — strip the last character
exactly when it is 'N' or 'S'.  Used only to exhibit how the source's
`rstrip('NS')` differs from this reading. -/
def specStripOne (s : String) : String :=
  match s.data.getLast? with
  | some c => if isDirChar c then String.mk s.data.dropLast else s
  | none => s

/-! ### Helper lemmas -/

theorem string_append_ne_empty (a b : String) (h : a ≠ "") : a ++ b ≠ "" := by
  intro hab
  apply h
  have hd : (a ++ b).data = [] := by rw [hab]
  rw [String.data_append] at hd
  exact String.ext (List.append_eq_nil.mp hd).1

theorem insert_self (m : StationNames) (k v : String) : m.insert k v k = some v := by
  unfold StationNames.insert
  simp

theorem insert_other (m : StationNames) (k v key : String) (h : key ≠ k) :
    m.insert k v key = m key := by
  unfold StationNames.insert
  simp [h]

theorem processRow_values_ne_empty (m : StationNames) (r : StationRow)
    (hm : ∀ k v, m k = some v → v ≠ "") :
    ∀ k v, processRow m r k = some v → v ≠ "" := by
  intro k v h
  simp only [processRow] at h
  split at h
  · split at h
    · rename_i hname
      unfold StationNames.insert at h
      split at h
      · cases h
        split
        · exact string_append_ne_empty _ _
            (string_append_ne_empty _ _ (string_append_ne_empty _ _ (by simpa using hname)))
        · simpa using hname
      · exact hm k v h
    · exact hm k v h
  · exact hm k v h

theorem build_values_ne_empty (rows : List StationRow) :
    ∀ k v, download_and_process_gtfs rows k = some v → v ≠ "" := by
  unfold download_and_process_gtfs
  have main : ∀ (l : List StationRow) (m : StationNames),
      (∀ k v, m k = some v → v ≠ "") →
      ∀ k v, (l.foldl processRow m) k = some v → v ≠ "" := by
    intro l
    induction l with
    | nil => intro m hm; exact hm
    | cons r rs ih =>
      intro m hm
      rw [List.foldl_cons]
      exact ih _ (processRow_values_ne_empty m r hm)
  exact main rows StationNames.empty (by intro k v h; cases h)

theorem head?_dropWhile_not (p : Char → Bool) (l : List Char) (c : Char)
    (h : (l.dropWhile p).head? = some c) : p c = false := by
  induction l with
  | nil => simp [List.dropWhile] at h
  | cons a as ih =>
    rw [List.dropWhile_cons] at h
    by_cases hp : p a
    · rw [if_pos hp] at h
      exact ih h
    · rw [if_neg hp] at h
      cases h
      simpa using hp

theorem rstripNS_split (s : String) :
    ∃ t : List Char, s.data = (rstripNS s).data ++ t ∧ ∀ c ∈ t, isDirChar c = true := by
  refine ⟨(s.data.reverse.takeWhile isDirChar).reverse, ?_, ?_⟩
  · have hsplit : s.data = (s.data.reverse.dropWhile isDirChar).reverse ++
        (s.data.reverse.takeWhile isDirChar).reverse := by
      conv_lhs =>
        rw [← s.data.reverse_reverse,
          ← List.takeWhile_append_dropWhile (p := isDirChar) (l := s.data.reverse),
          List.reverse_append]
    exact hsplit
  · intro c hc
    exact List.mem_takeWhile_imp (List.mem_reverse.mp hc)

theorem rstripNS_getLast (s : String) (c : Char)
    (h : (rstripNS s).data.getLast? = some c) : isDirChar c = false := by
  rw [show (rstripNS s).data = (s.data.reverse.dropWhile isDirChar).reverse from rfl,
    List.getLast?_reverse] at h
  exact head?_dropWhile_not isDirChar s.data.reverse c h

theorem rstripNS_append (base : String) (t : List Char)
    (hbase : rstripNS base = base) (ht : ∀ c ∈ t, isDirChar c = true) :
    rstripNS (base ++ String.mk t) = base := by
  have hb : base.data.reverse.dropWhile isDirChar = base.data.reverse := by
    have h2 : (base.data.reverse.dropWhile isDirChar).reverse = base.data :=
      congrArg String.data hbase
    have h3 := congrArg List.reverse h2
    simpa using h3
  unfold rstripNS
  rw [show (base ++ String.mk t).data = base.data ++ t from String.data_append _ _,
    List.reverse_append, List.dropWhile_append]
  have h1 : t.reverse.dropWhile isDirChar = [] :=
    List.dropWhile_eq_nil_iff.mpr (by intro x hx; exact ht x (List.mem_reverse.mp hx))
  rw [h1]
  simp only [List.isEmpty_nil, if_true]
  rw [hb, List.reverse_reverse]

theorem processRow_skip (m : StationNames) (r : StationRow)
    (h : r.gtfs_stop_id = none ∨ r.stop_name = none) : processRow m r = m := by
  rcases h with h | h <;> simp [processRow, h]

theorem processRow_retained (m : StationNames) (r : StationRow) (s n : String)
    (hid : r.gtfs_stop_id = some s) (hs : s ≠ "") (hn : r.stop_name = some n) (hne : n ≠ "") :
    processRow m r = m.insert s
      (if r.borough.getD "" ≠ "" then n ++ " (" ++ r.borough.getD "" ++ ")" else n) := by
  simp [processRow, hid, hn, hs, hne]

theorem foldl_processRow_untouched (rows : List StationRow) (m : StationNames) (k : String)
    (h : ∀ r ∈ rows, r.gtfs_stop_id.getD "" ≠ k) :
    (rows.foldl processRow m) k = m k := by
  induction rows generalizing m with
  | nil => rfl
  | cons r rs ih =>
    rw [List.foldl_cons, ih _ (fun r' hr' => h r' (List.mem_cons_of_mem _ hr'))]
    have hk := h r (List.mem_cons_self r rs)
    simp only [processRow]
    split
    · split
      · exact insert_other m _ _ k (fun hkk => hk hkk.symm)
      · rfl
    · rfl

/-! ### Claim theorems -/

/-- Claim C1, counterexample: `get_station_name` applied to the empty
stop id (with a directory built from no rows) returns the empty string,
refuting "returns a non-empty string for every string input, including
the empty string". -/
theorem resolve_empty_string_counterexample :
    get_station_name (download_and_process_gtfs []) "" = "" := rfl

/-- Claim C1 (amended): `get_station_name` is total and never fails by
construction, and for every directory built by
`download_and_process_gtfs` it returns a non-empty string for every
non-empty `stop_id`; the empty-string input is returned unchanged (and
is therefore empty). -/
theorem resolve_nonempty_amended (rows : List StationRow) (stop_id : String)
    (h : stop_id ≠ "") :
    get_station_name (download_and_process_gtfs rows) stop_id ≠ "" := by
  show (download_and_process_gtfs rows (rstripNS stop_id)).getD stop_id ≠ ""
  cases e : download_and_process_gtfs rows (rstripNS stop_id) with
  | none => simpa using h
  | some v => simpa using build_values_ne_empty rows (rstripNS stop_id) v e

/-- Witness for the amended C1 at rows = [] and stop_id = "G22S". -/
theorem resolve_nonempty_amended_witness :
    get_station_name (download_and_process_gtfs []) "G22S" ≠ "" :=
  resolve_nonempty_amended [] "G22S" (by decide)

/-- Claim C2, counterexample: with a directory mapping "G2" to "X", the
stop id "G2NS" resolves to "X" because `rstrip('NS')` removes *both*
trailing direction characters; under the claimed strip-at-most-one
reading the lookup key would be "G2N", which is absent, so the claim
predicts the result "G2NS" — different from the code's "X". -/
theorem strip_at_most_one_counterexample :
    get_station_name (download_and_process_gtfs [⟨some "G2", some "X", none⟩]) "G2NS" = "X" ∧
    specStripOne "G2NS" = "G2N" ∧
    download_and_process_gtfs [⟨some "G2", some "X", none⟩] "G2N" = none ∧
    ("X" : String) ≠ "G2NS" := by
  refine ⟨by decide, by decide, by decide, by decide⟩

/-- Claim C2 (amended): the lookup key of `get_station_name` is the stop
id with *all* trailing characters from the set {'N','S'} removed (not
just one); only such characters are removed — the key is an initial
segment of the input whose removed tail consists solely of direction
characters — and the key itself never ends in a direction character. -/
theorem strip_all_trailing_dir_amended (m : StationNames) (s : String) :
    get_station_name m s = (m (rstripNS s)).getD s ∧
    (∃ t : List Char, s.data = (rstripNS s).data ++ t ∧ ∀ c ∈ t, isDirChar c = true) ∧
    (∀ c : Char, (rstripNS s).data.getLast? = some c → isDirChar c = false) :=
  ⟨rfl, rstripNS_split s, fun c h => rstripNS_getLast s c h⟩

/-- Witness for the amended C2 at s = "G22S": the stripped key "G22"
ends in '2', which is not a direction character. -/
theorem strip_all_trailing_dir_amended_witness : isDirChar '2' = false :=
  (strip_all_trailing_dir_amended StationNames.empty "G22S").2.2 '2' (by decide)

/-- Claim C3, counterexample: the directory contains the base key "GS",
and the stop id is "GS" followed by the direction suffix "N"; the claim
predicts resolution to the display name "X", but `rstrip('NS')` strips
the trailing "SN" entirely, the lookup key "G" is absent, and the code
returns the original "GSN". -/
theorem resolve_round_trip_counterexample :
    download_and_process_gtfs [⟨some "GS", some "X", none⟩] "GS" = some "X" ∧
    get_station_name (download_and_process_gtfs [⟨some "GS", some "X", none⟩])
      ("GS" ++ "N") = "GSN" ∧
    ("GSN" : String) ≠ "X" := by
  refine ⟨by decide, by decide, by decide⟩

/-- Claim C3 (amended): for a stop id made of a base key followed by
direction-suffix characters, *provided the base key itself does not end
in a direction character* (equivalently, stripping leaves it unchanged),
a directory hit on the base key resolves to its display name; and
whenever the stripped key misses the directory, the original unstripped
stop id is returned unchanged. -/
theorem resolve_round_trip_amended (m : StationNames) (base : String) (t : List Char)
    (name : String) (hbase : rstripNS base = base)
    (ht : ∀ c ∈ t, isDirChar c = true) (hm : m base = some name) :
    get_station_name m (base ++ String.mk t) = name ∧
    (∀ s : String, m (rstripNS s) = none → get_station_name m s = s) := by
  constructor
  · show (m (rstripNS (base ++ String.mk t))).getD (base ++ String.mk t) = name
    rw [rstripNS_append base t hbase ht, hm]
    rfl
  · intro s hs
    show (m (rstripNS s)).getD s = s
    rw [hs]
    rfl

/-- Witness for the amended C3: "G22" with suffix "S" against a
directory built from the row ("G22", "Court Sq", "Queens"). -/
theorem resolve_round_trip_amended_witness :
    get_station_name (download_and_process_gtfs [⟨some "G22", some "Court Sq", some "Queens"⟩])
      ("G22" ++ String.mk ['S']) = "Court Sq (Queens)" :=
  (resolve_round_trip_amended
    (download_and_process_gtfs [⟨some "G22", some "Court Sq", some "Queens"⟩])
    "G22" ['S'] "Court Sq (Queens)" (by decide) (by decide) (by decide)).1

/-- Claim C4: the status dictionary maps 0, 1, 2 to INCOMING_AT,
STOPPED_AT, IN_TRANSIT_TO; every other integer, negatives included,
yields "UNKNOWN"; and an absent status field (modelled from the spec,
the protobuf module being outside src/) also yields "UNKNOWN". -/
theorem status_mapping_exhaustive :
    status_mapping 0 = "INCOMING_AT" ∧ status_mapping 1 = "STOPPED_AT" ∧
    status_mapping 2 = "IN_TRANSIT_TO" ∧
    (∀ status : Int, status ≠ 0 → status ≠ 1 → status ≠ 2 →
      status_mapping status = "UNKNOWN") ∧
    read_current_status none = "UNKNOWN" := by
  refine ⟨rfl, rfl, rfl, ?_, rfl⟩
  intro status h0 h1 h2
  unfold status_mapping
  rw [if_neg h0, if_neg h1, if_neg h2]

/-- Witness for C4 at the negative status -3. -/
theorem status_mapping_exhaustive_witness : status_mapping (-3) = "UNKNOWN" :=
  status_mapping_exhaustive.2.2.2.1 (-3) (by decide) (by decide) (by decide)

/-- Claim C5, counterexample: `display_train_positions` never consults
the station directory — the scenario vehicle projects to the raw stop
id "G22S", even though resolving "G22S" against the scenario directory
would give "Court Sq (Queens)". -/
theorem vehicle_projection_counterexample :
    projectVehicle ⟨some ⟨"G1", "G"⟩, some "G22S", some 1⟩ =
      { train := "G1", station := "G22S", status := "STOPPED_AT" } ∧
    get_station_name
      (download_and_process_gtfs [⟨some "G22", some "Court Sq", some "Queens"⟩]) "G22S" =
      "Court Sq (Queens)" ∧
    ("G22S" : String) ≠ "Court Sq (Queens)" := by
  refine ⟨by decide, by decide, by decide⟩

/-- Claim C5 (amended): the vehicle projection substitutes "N/A" for an
absent trip identifier and for an absent stop id, but displays the raw
stop id without resolving it through the station directory; the
scenario vehicle therefore yields {train "G1", station "G22S", status
"STOPPED_AT"}. -/
theorem vehicle_projection_amended :
    projectVehicle ⟨some ⟨"G1", "G"⟩, some "G22S", some 1⟩ =
      { train := "G1", station := "G22S", status := "STOPPED_AT" } ∧
    (∀ v : VehiclePosition, (projectVehicle v).station = v.stop_id.getD "N/A") ∧
    (∀ v : VehiclePosition, v.trip = none → (projectVehicle v).train = "N/A") ∧
    (∀ v : VehiclePosition, v.stop_id = none → (projectVehicle v).station = "N/A") := by
  refine ⟨by decide, fun v => rfl, ?_, ?_⟩
  · intro v hv
    simp [projectVehicle, hv]
  · intro v hv
    simp [projectVehicle, hv]

/-- Witness for the amended C5 at the all-absent vehicle. -/
theorem vehicle_projection_amended_witness :
    (projectVehicle ⟨none, none, none⟩).train = "N/A" :=
  vehicle_projection_amended.2.2.1 ⟨none, none, none⟩ rfl

/-- Claim C6: the trip-update projection emits exactly one record per
stop_time_update, in the original order (the i-th record carries the
i-th update's stop id), and an absent arrival or departure yields the
sentinel "N/A". -/
theorem trip_update_projection_order (ctime : Int → String) (trip_update : TripUpdate) :
    (process_trip_update ctime trip_update).length = trip_update.stop_time_update.length ∧
    (∀ i : Nat, ((process_trip_update ctime trip_update)[i]?).map StopTimeRecord.stop_id =
      (trip_update.stop_time_update[i]?).map StopTimeUpdate.stop_id) ∧
    (∀ i : Nat, ∀ stu : StopTimeUpdate, trip_update.stop_time_update[i]? = some stu →
      stu.arrival = none →
      ((process_trip_update ctime trip_update)[i]?).map StopTimeRecord.arrival = some "N/A") ∧
    (∀ i : Nat, ∀ stu : StopTimeUpdate, trip_update.stop_time_update[i]? = some stu →
      stu.departure = none →
      ((process_trip_update ctime trip_update)[i]?).map StopTimeRecord.departure =
        some "N/A") := by
  refine ⟨List.length_map _ _, ?_, ?_, ?_⟩
  · intro i
    unfold process_trip_update
    rw [List.getElem?_map]
    cases trip_update.stop_time_update[i]? <;> rfl
  · intro i stu h harr
    unfold process_trip_update
    rw [List.getElem?_map, h]
    simp [harr]
  · intro i stu h hdep
    unfold process_trip_update
    rw [List.getElem?_map, h]
    simp [hdep]

/-- Witness for C6: a one-update trip whose update has no arrival
projects to the arrival sentinel "N/A". -/
theorem trip_update_projection_order_witness :
    ((process_trip_update (fun _ => "T") ⟨⟨"t1", "G"⟩, [⟨"G22", none, some 5⟩]⟩)[0]?).map
      StopTimeRecord.arrival = some "N/A" :=
  (trip_update_projection_order (fun _ => "T") ⟨⟨"t1", "G"⟩, [⟨"G22", none, some 5⟩]⟩).2.2.1 0
    ⟨"G22", none, some 5⟩ rfl rfl

/-- Claim C7: a row with a missing `gtfs_stop_id` or missing `stop_name`
is skipped — it leaves the dictionary unchanged and the build of the
remaining rows proceeds as if the row were not there — while a retained
row stores "{stop_name} ({borough})" when the borough is present and
non-empty, else the stop name alone. -/
theorem directory_build_row_handling (m : StationNames) (r : StationRow) :
    ((r.gtfs_stop_id = none ∨ r.stop_name = none) → processRow m r = m) ∧
    (∀ pre post : List StationRow, (r.gtfs_stop_id = none ∨ r.stop_name = none) →
      download_and_process_gtfs (pre ++ r :: post) = download_and_process_gtfs (pre ++ post)) ∧
    (∀ s n : String, r.gtfs_stop_id = some s → s ≠ "" → r.stop_name = some n → n ≠ "" →
      processRow m r = m.insert s
        (if r.borough.getD "" ≠ "" then n ++ " (" ++ r.borough.getD "" ++ ")" else n)) := by
  refine ⟨processRow_skip m r, ?_, processRow_retained m r⟩
  intro pre post hsk
  unfold download_and_process_gtfs
  rw [List.foldl_append, List.foldl_append, List.foldl_cons, processRow_skip _ r hsk]

/-- Witness for C7: a row with no `gtfs_stop_id` leaves the empty
dictionary unchanged. -/
theorem directory_build_row_handling_witness :
    processRow StationNames.empty ⟨none, some "X", none⟩ = StationNames.empty :=
  (directory_build_row_handling StationNames.empty ⟨none, some "X", none⟩).1 (Or.inl rfl)

/-- Claim C8: the alert projection flattens every header translation and
every description translation into lists preserving feed order (the
i-th output is the i-th translation's text, with no de-duplication and
no language filtering), and the two-header/zero-description alert
yields exactly 2 headers and 0 descriptions. -/
theorem alert_flattening_order (alert : Alert) :
    (process_alert alert).1.length = alert.header_text.translation.length ∧
    (process_alert alert).2.length = alert.description_text.translation.length ∧
    (∀ i : Nat, (process_alert alert).1[i]? =
      (alert.header_text.translation[i]?).map Translation.text) ∧
    (∀ i : Nat, (process_alert alert).2[i]? =
      (alert.description_text.translation[i]?).map Translation.text) ∧
    (process_alert ⟨⟨[⟨"h1", none⟩, ⟨"h2", some "en"⟩]⟩, ⟨[]⟩⟩).1.length = 2 ∧
    (process_alert ⟨⟨[⟨"h1", none⟩, ⟨"h2", some "en"⟩]⟩, ⟨[]⟩⟩).2.length = 0 := by
  refine ⟨List.length_map _ _, List.length_map _ _, ?_, ?_, rfl, rfl⟩
  · intro i
    exact List.getElem?_map _ _ _
  · intro i
    exact List.getElem?_map _ _ _

/-- Claim C9: the `get_station_name` method is read-only on the
directory — the `station_names` mapping after the call equals the
mapping before it, for every state and every stop id. -/
theorem resolve_read_only (self : StationMapping) (stop_id : String) :
    (self.get_station_name stop_id).2.station_names = self.station_names := rfl

/-- Claim C10: when several valid rows share a `gtfs_stop_id`, the built
directory maps that key to the display name of the last such row — any
earlier rows (`pre`) are overwritten, and the build never fails on
duplicates. -/
theorem duplicate_rows_last_wins (pre post : List StationRow) (r : StationRow) (s n : String)
    (hid : r.gtfs_stop_id = some s) (hs : s ≠ "") (hn : r.stop_name = some n) (hne : n ≠ "")
    (hpost : ∀ r' ∈ post, r'.gtfs_stop_id.getD "" ≠ s) :
    download_and_process_gtfs (pre ++ r :: post) s =
      some (if r.borough.getD "" ≠ "" then n ++ " (" ++ r.borough.getD "" ++ ")" else n) := by
  unfold download_and_process_gtfs
  rw [List.foldl_append, List.foldl_cons,
    foldl_processRow_untouched post _ s hpost,
    processRow_retained _ r s n hid hs hn hne]
  exact insert_self _ _ _

/-- Witness for C10: two valid rows with the key "G22"; the directory
maps "G22" to the display name of the second. -/
theorem duplicate_rows_last_wins_witness :
    download_and_process_gtfs
      [⟨some "G22", some "Old", none⟩, ⟨some "G22", some "New", none⟩] "G22" = some "New" := by
  have h := duplicate_rows_last_wins [⟨some "G22", some "Old", none⟩] []
    ⟨some "G22", some "New", none⟩ "G22" "New" rfl (by decide) rfl (by decide)
    (by intro r' hr'; exact absurd hr' (List.not_mem_nil r'))
  simpa using h

end MTATracker
